import Mathlib

/-!
Shallow embedding of the pipeline-orchestration utilities of the
fsub_extractor repository (file src/fsub_extractor/utils/utils.py) and
verification of the frozen claims about them.

The repository code only builds argument lists for external neuroimaging
tools, locates executables on the PATH, and sequences synchronous calls to
a command runner.  We embed each function as a Lean definition over an
explicit environment (PATH variable contents, executability and
directory predicates) and a trace type recording, in order, the values
that are handed to the command runner, together with the Python-level
error (if any) that aborts the function.  External processes are assumed
to exit with code zero inside pipeline traces; the command runner itself
is additionally modelled with an arbitrary exit code so that its
error-handling contract can be stated.
-/

/-- Python str.split with a one-character separator, on character lists:
splitting the empty list yields one empty group, matching CPython. -/
def splitChar (sep : Char) : List Char → List (List Char)
  | [] => [[]]
  | c :: cs =>
    if c = sep then [] :: splitChar sep cs
    else
      match splitChar sep cs with
      | [] => [[c]]
      | g :: gs => (c :: g) :: gs

/-- Python s.split(sep) for a one-character separator. -/
def pySplit (s : String) (sep : Char) : List String :=
  (splitChar sep s.toList).map (fun l => String.mk l)

/-- Python s.strip(c): removes leading and trailing occurrences of c. -/
def stripChar (c : Char) (s : String) : String :=
  String.mk (((s.toList.dropWhile (· == c)).reverse.dropWhile (· == c)).reverse)

/-- Test that a string ends with the given other string. -/
def strEndsWith (s suf : String) : Bool :=
  suf.toList.isSuffixOf s.toList

/-- Test that a string starts with the given other string. -/
def strStartsWith (s pre : String) : Bool :=
  pre.toList.isPrefixOf s.toList

/-- posixpath.join for two components, as used by op.join in the source. -/
def opJoin (a b : String) : String :=
  if strStartsWith b "/" then b
  else if a == "" || strEndsWith a "/" then a ++ b
  else a ++ "/" ++ b

/-- Python s[-n:]: the last n characters (the whole string when shorter). -/
def pyTakeLast (s : String) (n : Nat) : String :=
  String.mk (s.toList.drop (s.toList.length - n))

/-- Python s.removesuffix(suf). -/
def pyRemoveSuffix (s suf : String) : String :=
  if strEndsWith s suf then String.mk (s.toList.take (s.toList.length - suf.toList.length))
  else s

/-- Fuel-driven core of Python str.replace: replaces every non-overlapping
occurrence of pat (taken nonempty) left to right.  The fuel is at least the
length of the scanned list, so it never runs out on the intended calls. -/
def pyReplaceFuel (pat rep : List Char) : Nat → List Char → List Char
  | 0, l => l
  | _ + 1, [] => []
  | fuel + 1, c :: cs =>
    if !pat.isEmpty && pat.isPrefixOf (c :: cs) then
      rep ++ pyReplaceFuel pat rep fuel ((c :: cs).drop pat.length)
    else
      c :: pyReplaceFuel pat rep fuel cs

/-- Python s.replace(pat, rep) for a nonempty pattern. -/
def pyReplace (s pat rep : String) : String :=
  String.mk (pyReplaceFuel pat.toList rep.toList s.toList.length s.toList)

/-- os.pathsep on POSIX. -/
def pathSepChar : Char := ':'

/-- Values that the Python code places into command lists: strings, floats
(carried exactly, since the code never computes with them), and None (the
implicit return value of a fallen-through Python function). -/
inductive PyVal where
  | str (s : String)
  | float (q : Rat)
  | none
deriving DecidableEq

/-- Whether a Python value is a string; subprocess.run requires every argv
element to be textual and raises TypeError otherwise. -/
def PyVal.isStr : PyVal → Bool
  | .str _ => true
  | _ => false

/-- The textual content of a string value (only consulted on strings). -/
def PyVal.text : PyVal → String
  | .str s => s
  | _ => ""

/-- Python-level errors raised by the embedded code paths. -/
inductive PyError where
  | systemExit (msg : String)
  | exception (msg : String)
  | nameError (name : String)
  | keyError (key : String)
  | indexError
  | typeError
deriving DecidableEq

/-- The value passed to run_command at a call site: either a list of
Python values (the intended usage) or a bare string (as in dilate_roi). -/
inductive RunArg where
  | list (cmd : List PyVal)
  | strArg (s : String)
deriving DecidableEq

instance {ε α : Type} [DecidableEq ε] [DecidableEq α] : DecidableEq (Except ε α) := fun a b =>
  match a, b with
  | .ok x, .ok y =>
    if h : x = y then .isTrue (h ▸ rfl) else .isFalse (fun hh => h (Except.ok.inj hh))
  | .error e, .error f =>
    if h : e = f then .isTrue (h ▸ rfl) else .isFalse (fun hh => h (Except.error.inj hh))
  | .ok _, .error _ => .isFalse (fun hh => Except.noConfusion hh)
  | .error _, .ok _ => .isFalse (fun hh => Except.noConfusion hh)

/-- Result of one run_command call: whether an external process was
spawned at all, and how the call returned. -/
structure RunOutcome where
  spawned : Bool
  result : Except PyError Unit
deriving DecidableEq

/-- Trace of a pipeline function: the values handed to the command runner,
in order, and the Python error (if any) that aborted the function. -/
structure Trace where
  runs : List RunArg
  error : Option PyError
deriving DecidableEq

/-- The ambient process environment consulted by the source code. -/
structure Env where
  pathVar : Option String
  isExe : String → Bool
  isDir : String → Bool

/-- Embedding of find_program (utils.py lines 7 to 34).  The source reads
os.environ["PATH"] (KeyError when unset), splits it on os.pathsep, guards
on a zero-length split result, then iterates the directories; the loop
body returns the program when directory/program is executable and
otherwise raises on the spot with a message that references the undefined
name function_name, so only the first directory is ever consulted.  The
fall-through for an empty directory list returns Python None. -/
def find_program (env : Env) (program : String) : Except PyError PyVal :=
  match env.pathVar with
  | none => .error (.keyError "PATH")
  | some pathStr =>
    let path_split := pySplit pathStr pathSepChar
    if path_split.length = 0 then
      .error (.systemExit "PATH environment variable is empty.")
    else
      match path_split with
      | [] => .ok PyVal.none
      | p :: _ =>
        let path := stripChar '\"' p
        let exe_file := opJoin path program
        if env.isExe exe_file then .ok (PyVal.str program)
        else .error (.nameError "function_name")

/-- Embedding of run_command (utils.py lines 37 to 53).  The source first
evaluates cmd_list[0] (IndexError on an empty list, before any process is
spawned), then calls subprocess.run(cmd_list): the spawn raises TypeError
when any argv element is not textual, and a bare string argument runs the
named program with no arguments.  The exit code of the spawned process is
a parameter; a nonzero code raises SystemExit naming cmd_list[0]. -/
def run_command : RunArg → Int → RunOutcome
  | .list [], _ => ⟨false, .error .indexError⟩
  | .list (function_name :: rest), return_code =>
    if (function_name :: rest).all PyVal.isStr then
      if return_code = 0 then ⟨true, .ok ()⟩
      else
        ⟨true, .error (.systemExit
          ("Command " ++ function_name.text ++ " exited with errors. See message above for more information."))⟩
    else ⟨false, .error .typeError⟩
  | .strArg s, return_code =>
    match s.toList with
    | [] => ⟨false, .error .indexError⟩
    | ch :: _ =>
      if return_code = 0 then ⟨true, .ok ()⟩
      else
        ⟨true, .error (.systemExit
          ("Command " ++ String.mk [ch] ++ " exited with errors. See message above for more information."))⟩

/-- Extend a pipeline trace with one run_command call, under the standing
assumption that every spawned external process exits with code zero.  The
argument is recorded as handed to the runner; a Python-level error from
the runner (empty list, non-textual argv) aborts the rest of the trace. -/
def emitRun (t : Trace) (a : RunArg) : Trace :=
  match t.error with
  | some _ => t
  | Option.none =>
    match (run_command a 0).result with
    | .ok _ => { runs := t.runs ++ [a], error := Option.none }
    | .error e => { runs := t.runs ++ [a], error := some e }

/-- Embedding of merge_rois (utils.py lines 56 to 87).  After the first
mrcalc invocation, building the merge command evaluates the undefined
name out_file and raises NameError; outpath_base is never consulted. -/
def merge_rois (env : Env) (roi1 roi2 outpath_base : String) : Trace :=
  let labelled_roi2 := pyRemoveSuffix roi2 ".nii.gz" ++ "_labelled.nii.gz"
  match find_program env "mrcalc" with
  | .error e => { runs := [], error := some e }
  | .ok mrcalc =>
    let cmd_mrcalc_mult : List PyVal :=
      [mrcalc, .str roi2, .str "2", .str "-mult", .str labelled_roi2]
    let t1 := emitRun { runs := [], error := Option.none } (.list cmd_mrcalc_mult)
    match t1.error with
    | some _ => t1
    | Option.none =>
      let _ := roi1
      let _ := outpath_base
      { t1 with error := some (.nameError "out_file") }

/-- The volume-extension test of anat_to_gmwmi (utils.py line 114):
anat[-7:] == '.nii.gz' or anat[-4:] == '.nii' or anat[-4:] == '.mif'. -/
def isT1Ext (anat : String) : Bool :=
  pyTakeLast anat 7 == ".nii.gz" || pyTakeLast anat 4 == ".nii" || pyTakeLast anat 4 == ".mif"

/-- The input-classification branch of anat_to_gmwmi (utils.py lines 111
to 118): the op.isdir(op.join(anat, 'surf')) test is made first, the
extension test second, and anything else raises Exception. -/
def anat_algo (isDir : String → Bool) (anat : String) : Except PyError String :=
  if isDir (opJoin anat "surf") then .ok "hsvs"
  else if isT1Ext anat then .ok "fsl"
  else .error (.exception "Neither T1 or FreeSurfer input detected; Unable to create GMWMI")

/-- Embedding of anat_to_gmwmi (utils.py lines 90 to 133): classify the
anatomical input, then run 5ttgen with the chosen algorithm and -nocrop,
then run 5tt2gmwmi on the produced 5TT image. -/
def anat_to_gmwmi (env : Env) (anat outpath_base : String) : Trace :=
  match anat_algo env.isDir anat with
  | .error e => { runs := [], error := some e }
  | .ok fivett_algo =>
    match find_program env "5ttgen" with
    | .error e => { runs := [], error := some e }
    | .ok fivettgen =>
      let cmd_5ttgen : List PyVal :=
        [fivettgen, .str fivett_algo, .str anat, .str (outpath_base ++ "5tt.nii.gz"), .str "-nocrop"]
      let t1 := emitRun { runs := [], error := Option.none } (.list cmd_5ttgen)
      match t1.error with
      | some _ => t1
      | Option.none =>
        match find_program env "5tt2gmwmi" with
        | .error e => { t1 with error := some e }
        | .ok fivett2gmwmi =>
          emitRun t1 (.list
            [fivett2gmwmi, .str (outpath_base ++ "5tt.nii.gz"), .str (outpath_base ++ "gmwmi.nii.gz")])

/-- Embedding of extract_tck_mrtrix (utils.py lines 136 to 197).  The
search_dist value is placed into the tck2connectome argv exactly as
received, with no textual coercion; the connectome2tck node set is "1,2"
when two_rois and "0,1" otherwise. -/
def extract_tck_mrtrix (env : Env) (tck_file rois_in outpath_base : String)
    (search_dist : PyVal) (two_rois : Bool) : Trace :=
  match find_program env "tck2connectome" with
  | .error e => { runs := [], error := some e }
  | .ok tck2connectome =>
    let tck2connectome_cmd : List PyVal :=
      [tck2connectome, .str tck_file, .str rois_in, .str (outpath_base ++ "connectome.txt"),
        .str "-assignment_forward_search", search_dist,
        .str "-out_assignments", .str (outpath_base ++ "assignments.txt"), .str "-force"]
    let t1 := emitRun { runs := [], error := Option.none } (.list tck2connectome_cmd)
    match t1.error with
    | some _ => t1
    | Option.none =>
      match find_program env "connectome2tck" with
      | .error e => { t1 with error := some e }
      | .ok connectome2tck =>
        let nodes := if two_rois then "1,2" else "0,1"
        emitRun t1 (.list
          [connectome2tck, .str tck_file, .str (outpath_base ++ "assignments.txt"),
            .str (outpath_base ++ "extracted"), .str "-nodes", .str nodes,
            .str "-exclusive", .str "-files", .str "single"])

/-- The mri_surf2vol argument list that dilate_roi constructs (utils.py
lines 222 to 223) and then never passes to the runner. -/
def mri_surf2vol_cmd (mri_surf2vol : PyVal) (roi_surf roi_in subject hemi fs_dir : String) :
    List PyVal :=
  [mri_surf2vol, .str "--surfval", .str roi_surf, .str "--o", .str roi_in,
    .str "--subject", .str subject, .str "--fill-projfrac", .str "-2 0 0.05",
    .str "--hemi", .str hemi, .str "--template", .str (opJoin (opJoin fs_dir "mri") "aseg.mgz"),
    .str "--identity", .str subject]

/-- Embedding of dilate_roi (utils.py lines 200 to 225).  For a
non-surface extension it builds and runs the mri_vol2surf command; in
both branches it then constructs mri_surf2vol_cmd but calls the runner on
the bare program string mri_surf2vol instead of on that list (line 224),
so the surface-to-volume tool is invoked with no arguments. -/
def dilate_roi (env : Env) (roi_in fs_dir hemi outpath_base : String) : Trace :=
  let _ := outpath_base
  let subject := (pySplit fs_dir '/').getLastD ""
  let roi_file_extension := (pySplit roi_in '.').getLastD ""
  let start : Trace × String :=
    if roi_file_extension != "label" && roi_file_extension != "mgz" then
      let roi_surf := pyReplace roi_in roi_file_extension ".mgz"
      match find_program env "mri_vol2surf" with
      | .error e => ({ runs := [], error := some e }, roi_surf)
      | .ok mri_vol2surf =>
        let mri_vol2surf_cmd : List PyVal :=
          [mri_vol2surf, .str "--src", .str roi_in, .str "--projfrac-max", .str "-.5 1 .1",
            .str "--out", .str roi_surf, .str "--regheader", .str subject, .str "--hemi", .str hemi]
        (emitRun { runs := [], error := Option.none } (.list mri_vol2surf_cmd), roi_surf)
    else
      ({ runs := [], error := Option.none }, roi_in)
  let t1 := start.1
  let roi_surf := start.2
  match t1.error with
  | some _ => t1
  | Option.none =>
    match find_program env "mri_surf2vol" with
    | .error e => { t1 with error := some e }
    | .ok (PyVal.str prog) =>
      let _ := mri_surf2vol_cmd (PyVal.str prog) roi_surf roi_in subject hemi fs_dir
      emitRun t1 (.strArg prog)
    | .ok _ =>
      { t1 with error := some .typeError }

/-- Embedding of intersect_gmwmi (utils.py lines 228 to 231).  Building
the mrcalc command evaluates the undefined name mrcalc_path and raises
NameError before any invocation. -/
def intersect_gmwmi (env : Env) (rois_in gmwmi outpath_base : String) : Trace :=
  match find_program env "mrcalc" with
  | .error e => { runs := [], error := some e }
  | .ok _ =>
    let _ := rois_in
    let _ := gmwmi
    let _ := outpath_base
    { runs := [], error := some (.nameError "mrcalc_path") }

/-- A concrete environment in which every external tool is executable in
the single PATH directory and no path is a directory. -/
def envAll : Env :=
  { pathVar := some "/usr/bin", isExe := fun _ => true, isDir := fun _ => false }

lemma splitChar_length_pos (sep : Char) (l : List Char) : 0 < (splitChar sep l).length := by
  induction l with
  | nil => simp [splitChar]
  | cons c cs ih =>
    rw [splitChar]
    by_cases h : c = sep
    · rw [if_pos h]; simp
    · rw [if_neg h]
      split <;> simp

lemma all_isStr_map (l : List String) : (l.map PyVal.str).all PyVal.isStr = true := by
  induction l with
  | nil => rfl
  | cons a t ih => simp [List.all_cons, PyVal.isStr, ih]

lemma run_command_strs_zero (name : String) (rest : List String) :
    run_command (RunArg.list ((name :: rest).map PyVal.str)) 0 = ⟨true, .ok ()⟩ := by
  have h := all_isStr_map (name :: rest)
  simp only [List.map_cons] at h ⊢
  simp [run_command, h]

lemma run_command_strs_nonzero (name : String) (rest : List String) (rc : Int) (h : rc ≠ 0) :
    run_command (RunArg.list ((name :: rest).map PyVal.str)) rc =
      ⟨true, .error (.systemExit
        ("Command " ++ name ++ " exited with errors. See message above for more information."))⟩ := by
  have hall := all_isStr_map (name :: rest)
  simp only [List.map_cons] at hall ⊢
  simp [run_command, hall, h, PyVal.text]

/-- C1: the claim says find_program reports a clear not-found error naming
the program only after checking the full search path, and returns the
program when it is executable in at least one directory.  The code
instead raises inside the loop: with PATH consisting of the directories
/a and /b and the program executable only in /b, it raises NameError on
the undefined identifier function_name at the first directory instead of
returning the program, while the same program placed in /a is returned;
only the first directory is ever consulted. -/
theorem find_program_stops_at_first_directory :
    find_program ⟨some "/a:/b", fun f => f == "/b/prog", fun _ => false⟩ "prog"
        = Except.error (PyError.nameError "function_name")
    ∧ find_program ⟨some "/a:/b", fun f => f == "/a/prog", fun _ => false⟩ "prog"
        = Except.ok (PyVal.str "prog") := by decide

/-- C2: for every non-empty textual command list, run_command returns
normally exactly when the spawned process exits with code zero, and on
any nonzero exit code it raises SystemExit naming the first element of
the list. -/
theorem run_command_exit_code_contract (name : String) (rest : List String) (rc : Int) :
    (((run_command (RunArg.list ((name :: rest).map PyVal.str)) rc).result = Except.ok ()) ↔ rc = 0)
    ∧ (rc ≠ 0 → (run_command (RunArg.list ((name :: rest).map PyVal.str)) rc).result =
        Except.error (PyError.systemExit
          ("Command " ++ name ++ " exited with errors. See message above for more information."))) := by
  constructor
  · constructor
    · intro hok
      by_contra hrc
      rw [run_command_strs_nonzero name rest rc hrc] at hok
      simp at hok
    · intro hrc
      rw [hrc, run_command_strs_zero]
  · intro hrc
    rw [run_command_strs_nonzero name rest rc hrc]

/-- Witness for C2 at the concrete command list consisting of mrcalc and
exit code one: the runner raises the fatal error naming mrcalc. -/
theorem run_command_exit_code_contract_witness :
    (run_command (RunArg.list (["mrcalc"].map PyVal.str)) 1).result =
      Except.error (PyError.systemExit
        ("Command " ++ "mrcalc" ++ " exited with errors. See message above for more information.")) :=
  (run_command_exit_code_contract "mrcalc" [] 1).2 (by decide)

/-- C3: the claim says the tck2connectome invocation carries the search
distance coerced to textual form.  The code places the float value in the
argv unchanged, so in the scenario with tractography T.tck, atlas
R.nii.gz, output base out_ and search distance 2.0, the list handed to
the runner holds the float itself in the search-distance position and
the spawn fails with TypeError (subprocess rejects non-textual argv). -/
theorem extract_tck_search_dist_uncoerced :
    extract_tck_mrtrix envAll "T.tck" "R.nii.gz" "out_" (PyVal.float 2) false =
      { runs := [RunArg.list
          [PyVal.str "tck2connectome", PyVal.str "T.tck", PyVal.str "R.nii.gz",
           PyVal.str "out_connectome.txt", PyVal.str "-assignment_forward_search",
           PyVal.float 2, PyVal.str "-out_assignments", PyVal.str "out_assignments.txt",
           PyVal.str "-force"]],
        error := some PyError.typeError } := by decide

/-- C4: with a textual search distance the two invocations are exactly
the claimed argument lists, the node set being 1,2 when two_rois holds
and 0,1 otherwise, for all inputs; but in the literal one-ROI scenario
with the numeric search distance 2.0 only one list ever reaches the
runner, so the connectome2tck invocation never happens there. -/
theorem extract_tck_node_sets_and_filter_cmd :
    (∀ (tck rois pb sd : String) (two : Bool),
      (extract_tck_mrtrix envAll tck rois pb (PyVal.str sd) two).runs =
        [RunArg.list
          [PyVal.str "tck2connectome", PyVal.str tck, PyVal.str rois,
           PyVal.str (pb ++ "connectome.txt"), PyVal.str "-assignment_forward_search",
           PyVal.str sd, PyVal.str "-out_assignments", PyVal.str (pb ++ "assignments.txt"),
           PyVal.str "-force"],
         RunArg.list
          [PyVal.str "connectome2tck", PyVal.str tck, PyVal.str (pb ++ "assignments.txt"),
           PyVal.str (pb ++ "extracted"), PyVal.str "-nodes",
           PyVal.str (if two then "1,2" else "0,1"), PyVal.str "-exclusive",
           PyVal.str "-files", PyVal.str "single"]])
    ∧ (extract_tck_mrtrix envAll "T.tck" "R.nii.gz" "out_" (PyVal.float 2) false).runs.length = 1 := by
  constructor
  · intro tck rois pb sd two
    rfl
  · rfl

/-- C5: the claim says merge_rois, after relabelling the second mask,
adds it to the first and writes the result to a path derived from the
output base.  The code performs the first mrcalc invocation, then
building the merge command evaluates the undefined name out_file and
raises NameError: the second invocation never happens and outpath_base
is never used. -/
theorem merge_rois_undefined_out_file :
    merge_rois envAll "R1.nii.gz" "R2.nii.gz" "out_" =
      { runs := [RunArg.list
          [PyVal.str "mrcalc", PyVal.str "R2.nii.gz", PyVal.str "2",
           PyVal.str "-mult", PyVal.str "R2_labelled.nii.gz"]],
        error := some (PyError.nameError "out_file") } := by decide

/-- C6 counterexample: the claim says a path ending in .nii always
selects the volumetric fsl algorithm, but the directory test is made
first: for the input x.nii on a file system where x.nii/surf is a
directory, the classification yields hsvs, not fsl. -/
theorem anat_algo_extension_not_always_fsl :
    anat_algo (fun p => p == "x.nii/surf") "x.nii" = Except.ok "hsvs"
    ∧ decide (anat_algo (fun p => p == "x.nii/surf") "x.nii" = Except.ok "fsl") = false := by
  decide

/-- C6 amended: the directory test takes precedence.  A directory input
containing a surf subdirectory always selects hsvs; a path with a
recognized volume extension selects fsl provided the joined surf path is
not a directory; any other input makes anat_to_gmwmi stop with the
descriptive error before any external tool is invoked. -/
theorem anat_algo_classification_amended (env : Env) (anat outpath_base : String) :
    (env.isDir (opJoin anat "surf") = true → anat_algo env.isDir anat = Except.ok "hsvs")
    ∧ (env.isDir (opJoin anat "surf") = false → isT1Ext anat = true →
        anat_algo env.isDir anat = Except.ok "fsl")
    ∧ (env.isDir (opJoin anat "surf") = false → isT1Ext anat = false →
        anat_to_gmwmi env anat outpath_base =
          { runs := [], error := some (PyError.exception
              "Neither T1 or FreeSurfer input detected; Unable to create GMWMI") }) := by
  refine ⟨fun h => ?_, fun h1 h2 => ?_, fun h1 h2 => ?_⟩
  · simp [anat_algo, h]
  · simp [anat_algo, h1, h2]
  · simp [anat_to_gmwmi, anat_algo, h1, h2]

/-- Witness for the amended C6 at the volume input t1.nii.gz in an
environment where no path is a directory: the fsl algorithm is chosen. -/
theorem anat_algo_classification_amended_witness :
    anat_algo envAll.isDir "t1.nii.gz" = Except.ok "fsl" :=
  (anat_algo_classification_amended envAll "t1.nii.gz" "out_").2.1 (by decide) (by decide)

/-- C7: the claim says intersect_gmwmi invokes the arithmetic tool to
multiply the two inputs into the path built from the output base.  The
code locates mrcalc, then building the command evaluates the undefined
name mrcalc_path and raises NameError: nothing is ever handed to the
runner. -/
theorem intersect_gmwmi_undefined_mrcalc_path :
    intersect_gmwmi envAll "roi.nii.gz" "gmwmi.nii.gz" "out_" =
      { runs := [], error := some (PyError.nameError "mrcalc_path") } := by decide

/-- C8: the claim says the final step of dilate_roi runs the
surface-to-volume tool with the surface ROI as input and the original
ROI path as output.  The code builds that argument list but passes the
bare program string to the runner instead, so mri_surf2vol is invoked
with no arguments: the final trace entry is the bare string, which is
not the constructed mri_surf2vol_cmd list. -/
theorem dilate_roi_runner_gets_bare_string :
    dilate_roi envAll "roi.nii.gz" "/subjects/sub1" "lh" "out_" =
      { runs := [RunArg.list
          [PyVal.str "mri_vol2surf", PyVal.str "--src", PyVal.str "roi.nii.gz",
           PyVal.str "--projfrac-max", PyVal.str "-.5 1 .1", PyVal.str "--out",
           PyVal.str "roi.nii..mgz", PyVal.str "--regheader", PyVal.str "sub1",
           PyVal.str "--hemi", PyVal.str "lh"],
         RunArg.strArg "mri_surf2vol"],
        error := none }
    ∧ decide (RunArg.strArg "mri_surf2vol" =
        RunArg.list (mri_surf2vol_cmd (PyVal.str "mri_surf2vol") "roi.nii..mgz" "roi.nii.gz"
          "sub1" "lh" "/subjects/sub1")) = false := by decide

/-- C9: the claim says an empty search path makes find_program fail fast
with the empty-PATH configuration error.  Splitting any string, the
empty one included, always yields at least one entry, so the emptiness
check is dead code, and with PATH set to the empty string the function
proceeds into the loop and raises NameError on the undefined identifier
function_name instead of reporting the empty search path. -/
theorem find_program_empty_path_check_dead :
    (∀ s : String, 0 < (pySplit s pathSepChar).length)
    ∧ find_program ⟨some "", fun _ => false, fun _ => false⟩ "mrcalc"
        = Except.error (PyError.nameError "function_name") := by
  refine ⟨fun s => ?_, by decide⟩
  simpa [pySplit] using splitChar_length_pos pathSepChar s.toList

/-- C10: run_command applied to the empty list fails with IndexError
without spawning any process, and for every non-empty textual list with
a nonzero exit code the name in the failure message is exactly the first
element of the list. -/
theorem run_command_reads_first_element (rc : Int) (name : String) (rest : List String) :
    run_command (RunArg.list []) rc = ⟨false, Except.error PyError.indexError⟩
    ∧ (rc ≠ 0 → (run_command (RunArg.list ((name :: rest).map PyVal.str)) rc).result =
        Except.error (PyError.systemExit
          ("Command " ++ name ++ " exited with errors. See message above for more information."))) := by
  constructor
  · rfl
  · intro hrc
    rw [run_command_strs_nonzero name rest rc hrc]

/-- Witness for C10 at the concrete list tck2connectome T.tck and exit
code two: the failure message names tck2connectome, the first element. -/
theorem run_command_reads_first_element_witness :
    run_command (RunArg.list []) 2 = ⟨false, Except.error PyError.indexError⟩
    ∧ (run_command (RunArg.list (["tck2connectome", "T.tck"].map PyVal.str)) 2).result =
      Except.error (PyError.systemExit
        ("Command " ++ "tck2connectome" ++ " exited with errors. See message above for more information.")) :=
  ⟨(run_command_reads_first_element 2 "tck2connectome" ["T.tck"]).1,
    (run_command_reads_first_element 2 "tck2connectome" ["T.tck"]).2 (by decide)⟩
